import Mathlib

/-!
Shallow embedding of the Maestro Go SDK client (`maestro.go`) and proofs of
the specified properties.  The HTTP transport is modelled as an environment
mapping requests to results; durations are nanosecond counts (Go's
`time.Duration` is an integer nanosecond count).
-/

namespace Maestro

/-- Models a custom `*http.Transport`; only its identity matters to the client. -/
structure Transport where
  tag : Nat
deriving DecidableEq

/-- Mirrors `ClientConfig` from the source: an optional timeout override and an
optional transport override. -/
structure ClientConfig where
  Timeout : Int
  Transport : Option Transport
deriving DecidableEq

/-- Mirrors the `Client` struct: base URL, auth token, own identifier, and the
owned `http.Client`, of which we keep the two configurable fields. -/
structure Client where
  BaseUrl : String
  AuthToken : String
  Id : String
  HttpTimeout : Int
  HttpTransport : Option Transport
deriving DecidableEq

/-- Mirrors the `Registrant` struct serialized on the wire. -/
structure Registrant where
  Id : String
  Address : String
deriving DecidableEq

/-- Routes are plain strings in the source (`type Route string`). -/
abbrev Route := String

def authHeader : String := "X-Registry-Token"

def apiPrefix : String := "/api/v1"

def register : Route := "/register"

def deregister : Route := "/deregister"

def ping : Route := "/ping"

def query : Route := "/query?id=%s"

/-- Go's `strings.TrimSuffix`: removes one trailing copy of `suffix` when
present (`if HasSuffix(s, suffix) then s[:len(s)-len(suffix)] else s`). -/
def trimSuffix (s suffix : String) : String :=
  if suffix.data.isSuffixOf s.data then
    ⟨s.data.take (s.data.length - suffix.data.length)⟩
  else s

/-- Default `http.Client` timeout set by `New`: 3 seconds in nanoseconds. -/
def defaultTimeout : Int := 3 * 1000000000

/-- The override floor in `New`: 10 milliseconds in nanoseconds. -/
def timeoutFloor : Int := 10 * 1000000

/-- Mirrors `New`: trims one trailing slash from the base URL, starts from the
3-second default timeout, and applies the config overrides — the timeout only
when it exceeds `10*time.Millisecond`. -/
def New (baseUrl token id : String) (config : Option ClientConfig) : Client :=
  { BaseUrl := trimSuffix baseUrl "/"
    AuthToken := token
    Id := id
    HttpTimeout :=
      match config with
      | some cfg => if timeoutFloor < cfg.Timeout then cfg.Timeout else defaultTimeout
      | none => defaultTimeout
    HttpTransport :=
      match config with
      | some cfg => cfg.Transport
      | none => none }

/-- Mirrors `getUrl`: base URL ++ API prefix ++ route. -/
def getUrl (c : Client) (r : Route) : String :=
  c.BaseUrl ++ apiPrefix ++ r

/-- An outgoing HTTP request as the client builds it. -/
structure Request where
  method : String
  url : String
  body : Option String
  headers : List (String × String)
deriving DecidableEq

/-- Mirrors `addAuthHeader`: adds the token-carrying header to the request. -/
def addAuthHeader (c : Client) (r : Request) : Request :=
  { r with headers := r.headers ++ [(authHeader, c.AuthToken)] }

/-- Result of `http.Client.Do`: either a transport error or a response with a
status code and a body. -/
inductive TransportResult where
  | err (msg : String)
  | ok (status : Nat) (body : String)
deriving DecidableEq

/-- The environment a request exchange runs in: whether `http.NewRequest`
fails, what `Do` returns, and how the JSON decoder reads a response body. -/
structure HttpEnv where
  newReqErr : Request → Option String
  doResp : Request → TransportResult
  decodeRegistrant : String → Except String Registrant

/-- Hex digit used by the JSON string encoder (Go writes lowercase hex). -/
def hexDigit (n : Nat) : Char :=
  "0123456789abcdef".data.getD n '0'

/-- How Go's `encoding/json` escapes one character of a string value
(HTML-escaping on, the `json.Marshal` default). -/
def jsonEscapeChar (ch : Char) : String :=
  if ch = '"' then "\\\""
  else if ch = '\\' then "\\\\"
  else if ch = '<' ∨ ch = '>' ∨ ch = '&' then
    "\\u00" ++ String.singleton (hexDigit (ch.toNat / 16))
      ++ String.singleton (hexDigit (ch.toNat % 16))
  else if ch = '\n' then "\\n"
  else if ch = '\r' then "\\r"
  else if ch = '\t' then "\\t"
  else if ch.toNat < 32 then
    "\\u00" ++ String.singleton (hexDigit (ch.toNat / 16))
      ++ String.singleton (hexDigit (ch.toNat % 16))
  else if ch.toNat = 8232 ∨ ch.toNat = 8233 then
    "\\u202" ++ String.singleton (hexDigit (ch.toNat % 16))
  else String.singleton ch

/-- JSON encoding of a string value, double quotes included. -/
def jsonString (s : String) : String :=
  "\"" ++ String.join (s.data.map jsonEscapeChar) ++ "\""

/-- Output of `json.Marshal` on a `Registrant` (field tags `id`, `address`).
Marshalling a struct of two strings cannot fail, so no error case is modelled. -/
def marshalRegistrant (r : Registrant) : String :=
  "\x7b\"id\":" ++ jsonString r.Id ++ ",\"address\":" ++ jsonString r.Address ++ "\x7d"

/-- Error message `fmt.Errorf("received non-success status code (%d)", code)`. -/
def statusMsg (status : Nat) : String :=
  "received non-success status code (" ++ toString status ++ ")"

/-- The `Registrant` literal built at the top of `Register`. -/
def registerPayload (c : Client) (address : String) : Registrant :=
  { Id := c.Id, Address := address }

/-- The request `Register` hands to `http.NewRequest`: POST to the register
route with the marshalled payload as body. -/
def registerRequest (c : Client) (address : String) : Request :=
  { method := "POST"
    url := getUrl c register
    body := some (marshalRegistrant (registerPayload c address))
    headers := [] }

/-- Mirrors `Register`: marshal the payload, build the request, add the auth
header, execute, and fail on any status ≥ 400. Returns `none` on success and
`some msg` for the Go `error`. -/
def Register (c : Client) (address : String) (env : HttpEnv) : Option String :=
  match env.newReqErr (registerRequest c address) with
  | some e => some e
  | none =>
    match env.doResp (addAuthHeader c (registerRequest c address)) with
    | .err e => some e
    | .ok status _ => if 400 ≤ status then some (statusMsg status) else none

/-- A pointer-receiver method that writes no field leaves the client value
unchanged; `Register` only reads `c`, so the client after a call is `c` itself. -/
def registerState (c : Client) (_address : String) (_env : HttpEnv) : Client := c

/-- The client value after any sequence of prior `Register` calls. -/
def afterRegisters (c : Client) (calls : List (String × HttpEnv)) : Client :=
  calls.foldl (fun cl p => registerState cl p.1 p.2) c

/-- The `Registrant` literal built at the top of `Deregister`: the client's own
identifier and an empty address. -/
def deregisterPayload (c : Client) : Registrant :=
  { Id := c.Id, Address := "" }

/-- The request `Deregister` hands to `http.NewRequest`: DELETE to the
deregister route with the marshalled empty-address payload as body. -/
def deregisterRequest (c : Client) : Request :=
  { method := "DELETE"
    url := getUrl c deregister
    body := some (marshalRegistrant (deregisterPayload c))
    headers := [] }

/-- Mirrors `Deregister`: same exchange shape as `Register` on the deregister
route. -/
def Deregister (c : Client) (env : HttpEnv) : Option String :=
  match env.newReqErr (deregisterRequest c) with
  | some e => some e
  | none =>
    match env.doResp (addAuthHeader c (deregisterRequest c)) with
    | .err e => some e
    | .ok status _ => if 400 ≤ status then some (statusMsg status) else none

/-- The request `Ping` builds: PUT, no body, URL
`fmt.Sprintf("%s?id=%s", c.getUrl(ping), c.Id)`. -/
def pingRequest (c : Client) : Request :=
  { method := "PUT"
    url := getUrl c ping ++ "?id=" ++ c.Id
    body := none
    headers := [] }

/-- Mirrors `Ping`: PUT to the ping route with the client's identifier as the
`id` query parameter, failing on any status ≥ 400. -/
def Ping (c : Client) (env : HttpEnv) : Option String :=
  match env.newReqErr (pingRequest c) with
  | some e => some e
  | none =>
    match env.doResp (addAuthHeader c (pingRequest c)) with
    | .err e => some e
    | .ok status _ => if 400 ≤ status then some (statusMsg status) else none

/-- One step of `fmt.Sprintf` substitution: replaces the first `%s` verb in
the format character list with `arg`. The query format holds exactly one verb. -/
def substFirstAux (arg : List Char) : List Char → List Char
  | [] => []
  | [c] => [c]
  | c :: d :: rest =>
    if c = '%' ∧ d = 's' then arg ++ rest
    else c :: substFirstAux arg (d :: rest)

/-- Models `fmt.Sprintf(format, arg)` for a format holding one `%s` verb. -/
def sprintf1 (format arg : String) : String :=
  ⟨substFirstAux arg.data format.data⟩

/-- The request `Query` builds: GET, no body, URL obtained by substituting the
target identifier into the query route template. -/
def queryRequest (c : Client) (id : String) : Request :=
  { method := "GET"
    url := sprintf1 (getUrl c query) id
    body := none
    headers := [] }

/-- Error wrapper `fmt.Errorf("could not create request: %s", ...)` in `Query`. -/
def buildErrMsg (e : String) : String := "could not create request: " ++ e

/-- Error wrapper `fmt.Errorf("could not execute query request: %s", ...)` in `Query`. -/
def execErrMsg (e : String) : String := "could not execute query request: " ++ e

/-- Error wrapper `fmt.Errorf("could not decode JSON: %s", ...)` in `Query`. -/
def decodeErrMsg (e : String) : String := "could not decode JSON: " ++ e

/-- Mirrors `Query`: returns the Go pair `(Registrant, error)`; each failure
stage returns the zero `Registrant` and a stage-tagged message. -/
def Query (c : Client) (id : String) (env : HttpEnv) : Registrant × Option String :=
  match env.newReqErr (queryRequest c id) with
  | some e => (⟨"", ""⟩, some (buildErrMsg e))
  | none =>
    match env.doResp (addAuthHeader c (queryRequest c id)) with
    | .err e => (⟨"", ""⟩, some (execErrMsg e))
    | .ok _ body =>
      match env.decodeRegistrant body with
      | .error e => (⟨"", ""⟩, some (decodeErrMsg e))
      | .ok entry => (entry, none)

/-- One iteration of the `select` in `StartPing`, as chosen by the Go runtime:
the `ctx.Done()` case, the ticker case (carrying the environment the resulting
`Ping` call runs in), or the `default` case when neither channel is ready. -/
inductive SelectEvent where
  | done
  | tick (env : HttpEnv)
  | noop

/-- Observable trace of one `StartPing` run: the results of the `Ping` calls it
made in order, the lines it printed, whether it returned (only the `ctx.Done()`
case returns), and whether `t.Stop()` was called before returning — `StartPing`
holds no `t.Stop()` call, so the flag is `false` on its one exit path. -/
structure PingTrace where
  pings : List (Option String)
  logs : List String
  returned : Bool
  tickerStopped : Bool
deriving DecidableEq

/-- Mirrors the `for`/`select` loop of `StartPing` over a finite prefix of
select outcomes. `done` executes `return` (no `t.Stop()` precedes it); `tick`
invokes `c.Ping()` and logs a failure; `default` does nothing. -/
def startPingRun (c : Client) : List SelectEvent → PingTrace
  | [] => { pings := [], logs := [], returned := false, tickerStopped := false }
  | SelectEvent.done :: _ =>
    { pings := [], logs := [], returned := true, tickerStopped := false }
  | SelectEvent.tick env :: rest =>
    let tr := startPingRun c rest
    { tr with
      pings := Ping c env :: tr.pings
      logs :=
        (match Ping c env with
         | some e => ["ping error: " ++ e]
         | none => []) ++ tr.logs }
  | SelectEvent.noop :: rest => startPingRun c rest

/-- The environments of the `tick` events of a trace prefix, in order. -/
def tickEnvs : List SelectEvent → List HttpEnv
  | [] => []
  | SelectEvent.tick env :: rest => env :: tickEnvs rest
  | _ :: rest => tickEnvs rest

/-- The log lines a trace prefix contributes: one per failed `Ping`. -/
def pingLogs (c : Client) : List SelectEvent → List String
  | [] => []
  | SelectEvent.tick env :: rest =>
    (match Ping c env with
     | some e => ["ping error: " ++ e]
     | none => []) ++ pingLogs c rest
  | _ :: rest => pingLogs c rest

/-- Shared fixture: a client built from the README-style inputs. -/
def cW : Client := New "http://svc:8080" "tok" "svc-a" none

/-- Shared fixture: an environment where request building succeeds, `Do`
returns the given status with an empty body, and JSON decoding fails. -/
def envStatus (status : Nat) : HttpEnv :=
  { newReqErr := fun _ => none
    doResp := fun _ => TransportResult.ok status ""
    decodeRegistrant := fun _ => Except.error "no decode" }

/-- Shared fixture: an environment whose responses carry status 200. -/
def envOk : HttpEnv := envStatus 200

/-- Shared fixture: an environment whose responses carry status 500, making
every `Ping` against it fail. -/
def envFail : HttpEnv := envStatus 500

lemma startPingRun_append (c : Client) (es₁ es₂ : List SelectEvent)
    (h : SelectEvent.done ∉ es₁) :
    (startPingRun c (es₁ ++ es₂)).pings
        = (tickEnvs es₁).map (Ping c) ++ (startPingRun c es₂).pings ∧
    (startPingRun c (es₁ ++ es₂)).logs = pingLogs c es₁ ++ (startPingRun c es₂).logs ∧
    (startPingRun c (es₁ ++ es₂)).returned = (startPingRun c es₂).returned ∧
    (startPingRun c (es₁ ++ es₂)).tickerStopped = (startPingRun c es₂).tickerStopped := by
  induction es₁ with
  | nil => simp [tickEnvs, pingLogs]
  | cons hd tl ih =>
    have htl : SelectEvent.done ∉ tl := fun hm => h (List.mem_cons_of_mem _ hm)
    obtain ⟨ih1, ih2, ih3, ih4⟩ := ih htl
    cases hd with
    | done => exact absurd (List.mem_cons_self _ _) h
    | tick env =>
      refine ⟨?_, ?_, ?_, ?_⟩ <;>
        simp [startPingRun, tickEnvs, pingLogs, ih1, ih2, ih3, ih4]
    | noop =>
      refine ⟨?_, ?_, ?_, ?_⟩ <;>
        simp [startPingRun, tickEnvs, pingLogs, ih1, ih2, ih3, ih4]

lemma append_ne_of_getD (i : Nat) (p q : List Char) (hp : i < p.length)
    (hq : i < q.length) (hne : p.getD i 'a' ≠ q.getD i 'a') (l₁ l₂ : List Char) :
    p ++ l₁ ≠ q ++ l₂ := by
  intro h
  apply hne
  have h1 : (p ++ l₁).getD i 'a' = p.getD i 'a' := List.getD_append p l₁ 'a' i hp
  have h2 : (q ++ l₂).getD i 'a' = q.getD i 'a' := List.getD_append q l₂ 'a' i hq
  rw [← h1, ← h2, h]

lemma string_append_ne (i : Nat) (p q : String) (hp : i < p.data.length)
    (hq : i < q.data.length) (hne : p.data.getD i 'a' ≠ q.data.getD i 'a')
    (s t : String) : p ++ s ≠ q ++ t := by
  intro h
  have hd : (p ++ s).data = (q ++ t).data := by rw [h]
  rw [String.data_append, String.data_append] at hd
  exact append_ne_of_getD i p.data q.data hp hq hne s.data t.data hd

lemma substFirstAux_cons_ne (arg : List Char) (c : Char) (l : List Char)
    (h : ¬ c = '%') : substFirstAux arg (c :: l) = c :: substFirstAux arg l := by
  cases l with
  | nil => rfl
  | cons d rest => simp [substFirstAux, h]

lemma substFirstAux_append (arg l : List Char) (h : '%' ∉ l) :
    substFirstAux arg (l ++ ['%', 's']) = l ++ arg := by
  induction l with
  | nil => simp [substFirstAux]
  | cons c cs ih =>
    have hc : ¬ c = '%' := by
      intro he
      subst he
      exact h (List.mem_cons_self _ _)
    have hcs : '%' ∉ cs := fun hm => h (List.mem_cons_of_mem _ hm)
    rw [List.cons_append, substFirstAux_cons_ne arg c _ hc, ih hcs, List.cons_append]

lemma sprintf1_append (a arg : String) (h : '%' ∉ a.data) :
    sprintf1 (a ++ "%s") arg = a ++ arg := by
  apply String.ext
  show substFirstAux arg.data (a ++ "%s").data = (a ++ arg).data
  rw [String.data_append, String.data_append]
  exact substFirstAux_append arg.data a.data h

/-- C9: construction strips one trailing slash from the base address and every
request URL is the normalized base address, the fixed API prefix, and the
route's path; in particular base address `http://svc:8080/` yields register URL
`http://svc:8080/api/v1/register`. -/
theorem getUrl_normalization (b tok i : String) (cfg : Option ClientConfig) (r : Route) :
    getUrl (New b tok i cfg) r = trimSuffix b "/" ++ apiPrefix ++ r ∧
    getUrl (New "http://svc:8080/" tok i cfg) register = "http://svc:8080/api/v1/register" := by
  constructor
  · rfl
  · show trimSuffix "http://svc:8080/" "/" ++ apiPrefix ++ register = _
    rfl

/-- C2: a configured timeout below the 10ms sanity floor leaves the 3s default
in effect, while one above the floor replaces it; `New` is a total function,
so construction never fails. -/
theorem New_timeout_spec (b tok i : String) (cfg : ClientConfig) :
    (cfg.Timeout < timeoutFloor → (New b tok i (some cfg)).HttpTimeout = defaultTimeout) ∧
    (timeoutFloor < cfg.Timeout → (New b tok i (some cfg)).HttpTimeout = cfg.Timeout) := by
  constructor
  · intro h
    have hn : ¬ timeoutFloor < cfg.Timeout := by omega
    simp [New, hn]
  · intro h
    simp [New, h]

theorem New_timeout_spec_witness :
    (New "http://svc:8080" "tok" "svc-a" (some ⟨5 * 1000000, none⟩)).HttpTimeout
        = defaultTimeout ∧
    (New "http://svc:8080" "tok" "svc-a" (some ⟨5 * 1000000000, none⟩)).HttpTimeout
        = 5 * 1000000000 :=
  ⟨(New_timeout_spec "http://svc:8080" "tok" "svc-a" ⟨5 * 1000000, none⟩).1 (by decide),
   (New_timeout_spec "http://svc:8080" "tok" "svc-a" ⟨5 * 1000000000, none⟩).2 (by decide)⟩

/-- C1: `Register` builds a payload whose `id` is the client's identifier and
whose `address` is the given address, sends it as a POST to the register
endpoint, and — given a response — errors with the numeric status code exactly
when the status is ≥ 400. -/
theorem Register_spec (c : Client) (address : String) (env : HttpEnv)
    (status : Nat) (body : String)
    (hbuild : env.newReqErr (registerRequest c address) = none)
    (hresp : env.doResp (addAuthHeader c (registerRequest c address))
        = TransportResult.ok status body) :
    (registerPayload c address).Id = c.Id ∧
    (registerPayload c address).Address = address ∧
    (registerRequest c address).method = "POST" ∧
    (registerRequest c address).url = getUrl c register ∧
    (registerRequest c address).body = some (marshalRegistrant (registerPayload c address)) ∧
    (400 ≤ status → Register c address env = some (statusMsg status)) ∧
    (status < 400 → Register c address env = none) := by
  refine ⟨rfl, rfl, rfl, rfl, rfl, ?_, ?_⟩
  · intro h
    simp [Register, hbuild, hresp, h]
  · intro h
    simp [Register, hbuild, hresp, Nat.not_le.mpr h]

theorem Register_spec_witness :
    Register cW "http://10.0.0.1:9000" (envStatus 503) = some (statusMsg 503) :=
  (Register_spec cW "http://10.0.0.1:9000" (envStatus 503) 503 "" rfl rfl).2.2.2.2.2.1
    (by decide)

/-- C7: every `Ping` request is a PUT to the ping endpoint with no body, and
its `id` query parameter is the client's own configured identifier. -/
theorem Ping_request_spec (c : Client) :
    (pingRequest c).method = "PUT" ∧
    (pingRequest c).body = none ∧
    (pingRequest c).url = c.BaseUrl ++ apiPrefix ++ ping ++ "?id=" ++ c.Id :=
  ⟨rfl, rfl, rfl⟩

/-- C3: a failed `Ping` does not terminate the liveness loop and its error is
only logged, never returned: after the failing tick a subsequent tick still
invokes `Ping`, and whether the loop returns is decided by the later events
alone. -/
theorem startPing_error_not_fatal (c : Client) (pre rest : List SelectEvent)
    (envF envN : HttpEnv) (e : String)
    (hpre : SelectEvent.done ∉ pre) (hfail : Ping c envF = some e) :
    (startPingRun c (pre ++ SelectEvent.tick envF :: SelectEvent.tick envN :: rest)).pings
        = (tickEnvs pre).map (Ping c)
            ++ some e :: Ping c envN :: (startPingRun c rest).pings ∧
    (startPingRun c (pre ++ SelectEvent.tick envF :: SelectEvent.tick envN :: rest)).returned
        = (startPingRun c rest).returned ∧
    "ping error: " ++ e
        ∈ (startPingRun c (pre ++ SelectEvent.tick envF :: SelectEvent.tick envN :: rest)).logs := by
  obtain ⟨h1, h2, h3, _⟩ :=
    startPingRun_append c pre (SelectEvent.tick envF :: SelectEvent.tick envN :: rest) hpre
  refine ⟨?_, ?_, ?_⟩
  · rw [h1]
    simp [startPingRun, hfail]
  · rw [h3]
    simp [startPingRun]
  · rw [h2]
    simp [startPingRun, hfail]

theorem startPing_error_not_fatal_witness :
    (startPingRun cW ([] ++ SelectEvent.tick envFail :: SelectEvent.tick envOk :: [])).pings
        = (tickEnvs []).map (Ping cW)
            ++ some (statusMsg 500) :: Ping cW envOk :: (startPingRun cW []).pings ∧
    (startPingRun cW ([] ++ SelectEvent.tick envFail :: SelectEvent.tick envOk :: [])).returned
        = (startPingRun cW []).returned ∧
    "ping error: " ++ statusMsg 500
        ∈ (startPingRun cW ([] ++ SelectEvent.tick envFail :: SelectEvent.tick envOk :: [])).logs :=
  startPing_error_not_fatal cW [] [] envFail envOk (statusMsg 500) (by simp) rfl

/-- C4: once the cancellation signal is observed the loop returns, and the
`Ping` calls made are exactly those of the ticks before the observation — no
heartbeat happens after it, whatever events follow. -/
theorem startPing_cancellation (c : Client) (pre rest : List SelectEvent)
    (hpre : SelectEvent.done ∉ pre) :
    (startPingRun c (pre ++ SelectEvent.done :: rest)).returned = true ∧
    (startPingRun c (pre ++ SelectEvent.done :: rest)).pings
        = (tickEnvs pre).map (Ping c) := by
  obtain ⟨h1, _, h3, _⟩ := startPingRun_append c pre (SelectEvent.done :: rest) hpre
  constructor
  · rw [h3]
    rfl
  · rw [h1]
    simp [startPingRun]

theorem startPing_cancellation_witness :
    (startPingRun cW ([SelectEvent.tick envOk] ++ SelectEvent.done :: [SelectEvent.tick envFail])).returned
        = true ∧
    (startPingRun cW ([SelectEvent.tick envOk] ++ SelectEvent.done :: [SelectEvent.tick envFail])).pings
        = (tickEnvs [SelectEvent.tick envOk]).map (Ping cW) :=
  startPing_cancellation cW [SelectEvent.tick envOk] [SelectEvent.tick envFail] (by simp)

/-- C5 (violated by the code): `StartPing` holds no `t.Stop()` call, so on the
cancellation exit path the loop returns with the ticker never released. -/
theorem startPing_ticker_leak :
    (startPingRun cW [SelectEvent.done]).returned = true ∧
    (startPingRun cW [SelectEvent.done]).tickerStopped = false :=
  ⟨rfl, rfl⟩

/-- C6: `Deregister` always sends the client's identifier with an empty
address, whatever `Register` calls happened before, and any two invocations
produce the same wire payload. -/
theorem Deregister_payload_spec (c : Client) (calls calls2 : List (String × HttpEnv)) :
    (deregisterPayload (afterRegisters c calls)).Id = c.Id ∧
    (deregisterPayload (afterRegisters c calls)).Address = "" ∧
    (deregisterRequest (afterRegisters c calls)).body
        = some (marshalRegistrant { Id := c.Id, Address := "" }) ∧
    (deregisterRequest (afterRegisters c calls)).body
        = (deregisterRequest (afterRegisters c calls2)).body := by
  have hc : ∀ cs : List (String × HttpEnv), afterRegisters c cs = c := by
    intro cs
    induction cs with
    | nil => rfl
    | cons hd tl ih => exact ih
  rw [hc calls, hc calls2]
  exact ⟨rfl, rfl, rfl, rfl⟩

/-- C8: the `Query` request targets the identifier passed as argument,
substituted into the query route template (for a base address free of format
verbs), and each of the three failure stages produces its own distinctly
prefixed error message, the three message families being pairwise disjoint. -/
theorem Query_error_kinds (c : Client) (id : String) (env : HttpEnv)
    (hbase : '%' ∉ c.BaseUrl.data) :
    (queryRequest c id).url = c.BaseUrl ++ "/api/v1/query?id=" ++ id ∧
    (queryRequest c id).method = "GET" ∧
    (∀ e, env.newReqErr (queryRequest c id) = some e →
      (Query c id env).2 = some (buildErrMsg e)) ∧
    (∀ e, env.newReqErr (queryRequest c id) = none →
      env.doResp (addAuthHeader c (queryRequest c id)) = TransportResult.err e →
      (Query c id env).2 = some (execErrMsg e)) ∧
    (∀ e status body, env.newReqErr (queryRequest c id) = none →
      env.doResp (addAuthHeader c (queryRequest c id)) = TransportResult.ok status body →
      env.decodeRegistrant body = Except.error e →
      (Query c id env).2 = some (decodeErrMsg e)) ∧
    (∀ e₁ e₂, buildErrMsg e₁ ≠ execErrMsg e₂) ∧
    (∀ e₁ e₂, buildErrMsg e₁ ≠ decodeErrMsg e₂) ∧
    (∀ e₁ e₂, execErrMsg e₁ ≠ decodeErrMsg e₂) := by
  have hsplit : getUrl c query = (c.BaseUrl ++ "/api/v1/query?id=") ++ "%s" := by
    show c.BaseUrl ++ apiPrefix ++ query = _
    rw [String.append_assoc, String.append_assoc]
    rfl
  have hnp : '%' ∉ (c.BaseUrl ++ "/api/v1/query?id=").data := by
    intro hm
    rw [String.data_append] at hm
    rcases List.mem_append.mp hm with h1 | h2
    · exact hbase h1
    · exact absurd h2 (by decide)
  refine ⟨?_, rfl, ?_, ?_, ?_, ?_, ?_, ?_⟩
  · show sprintf1 (getUrl c query) id = _
    rw [hsplit, sprintf1_append _ _ hnp]
  · intro e h
    simp [Query, h]
  · intro e h1 h2
    simp [Query, h1, h2]
  · intro e status body h1 h2 h3
    simp [Query, h1, h2, h3]
  · intro e₁ e₂
    exact string_append_ne 10 "could not create request: "
      "could not execute query request: " (by decide) (by decide) (by decide) e₁ e₂
  · intro e₁ e₂
    exact string_append_ne 10 "could not create request: "
      "could not decode JSON: " (by decide) (by decide) (by decide) e₁ e₂
  · intro e₁ e₂
    exact string_append_ne 10 "could not execute query request: "
      "could not decode JSON: " (by decide) (by decide) (by decide) e₁ e₂

theorem Query_error_kinds_witness :
    (queryRequest cW "svc-b").url = cW.BaseUrl ++ "/api/v1/query?id=" ++ "svc-b" ∧
    (Query cW "svc-b" (envStatus 200)).2 = some (decodeErrMsg "no decode") := by
  obtain ⟨h1, _, _, _, h5, _⟩ := Query_error_kinds cW "svc-b" (envStatus 200) (by decide)
  exact ⟨h1, h5 "no decode" 200 "" rfl rfl rfl⟩

/-- C10: whenever `Query` returns an error, the `Registrant` returned with it
is the zero value — empty identifier and empty address. -/
theorem Query_zero_on_error (c : Client) (id : String) (env : HttpEnv)
    (err : String) (h : (Query c id env).2 = some err) :
    (Query c id env).1 = ⟨"", ""⟩ := by
  cases hb : env.newReqErr (queryRequest c id) with
  | some e => simp [Query, hb]
  | none =>
    cases hd : env.doResp (addAuthHeader c (queryRequest c id)) with
    | err e => simp [Query, hb, hd]
    | ok status body =>
      cases hdec : env.decodeRegistrant body with
      | error e => simp [Query, hb, hd, hdec]
      | ok entry =>
        simp [Query, hb, hd, hdec] at h

theorem Query_zero_on_error_witness :
    (Query cW "svc-b" (envStatus 200)).1 = ⟨"", ""⟩ :=
  Query_zero_on_error cW "svc-b" (envStatus 200) (decodeErrMsg "no decode") rfl

end Maestro
